import Mathlib

/-!
Verification of the packaging descriptor `setup.py`.

Shallow embedding of the repository's single source file, `setup.py`.
The descriptor reads two files (`README.md` and `requirements.txt`),
derives a dependency list from the second, and passes a fixed tuple of
arguments to `setup`.  File contents are modelled as `List Char`
(the decoded text stream after universal-newline translation, which is
how Python's text mode presents a file opened with `encoding="utf-8"`).
-/

/-- The character class removed by Python's `str.strip()` with no
argument, restricted to the ASCII whitespace characters
(space, tab, newline, carriage return, vertical tab, form feed). -/
def pyIsSpace (c : Char) : Bool :=
  c = ' ' || c = '\t' || c = '\n' || c = '\r' || c.toNat = 11 || c.toNat = 12

/-- Iterating over a Python text-mode file handle (`for line in fh`)
yields the stream split after every `'\n'`; each line keeps its
terminating newline, and a final unterminated fragment is yielded as is.
An empty stream yields no lines. -/
def splitFileLines : List Char → List (List Char)
  | [] => []
  | c :: cs =>
    if c = '\n' then ['\n'] :: splitFileLines cs
    else
      match splitFileLines cs with
      | [] => [[c]]
      | l :: ls => (c :: l) :: ls

/-- Python's `str.strip()`: remove leading and trailing whitespace. -/
def pyStrip (l : List Char) : List Char :=
  ((l.dropWhile pyIsSpace).reverse.dropWhile pyIsSpace).reverse

/-- Python's `line.startswith("#")` on the raw (unstripped) line:
true exactly when the first character of the line is `'#'`. -/
def startsWithHash : List Char → Bool
  | [] => false
  | c :: _ => c = '#'

/-- The list comprehension of `setup.py` line 8:
`[line.strip() for line in fh if line.strip() and not line.startswith("#")]`.
A line passes the filter when its stripped form is non-empty (Python
truthiness of a string) and the raw line does not start with `'#'`;
each passing line contributes its stripped form, in file order. -/
def requirementsOf (content : List Char) : List (List Char) :=
  ((splitFileLines content).filter
    (fun line => !(pyStrip line).isEmpty && !startsWithHash line)).map pyStrip

/-- The requirements computation as the claim words it: the list holding,
in manifest line order, the stripped form of each line whose stripped
form is non-empty and whose raw (unstripped) text does not start
with `'#'`. -/
def requirementsSpec (content : List Char) : List (List Char) :=
  (splitFileLines content).filterMap (fun line =>
    if pyStrip line ≠ [] ∧ startsWithHash line = false then some (pyStrip line)
    else none)

/-- The arguments the descriptor passes to `setup`, one field per keyword
argument of the call in `setup.py` lines 10–59.  The
`packages=find_packages()` argument performs filesystem discovery inside
`setuptools` and is outside this model; every other argument is either a
literal or derived from the two files read at the top of the file. -/
structure SetupArgs where
  name : String
  version : String
  author : String
  author_email : String
  description : String
  long_description : List Char
  long_description_content_type : String
  url : String
  classifiers : List String
  python_requires : String
  install_requires : List (List Char)
  extras_require : List (String × List String)
  entry_points : List (String × List String)
  include_package_data : Bool
  keywords : String
  project_urls : List (String × String)
  deriving DecidableEq, Repr

/-- The classifier list literal of `setup.py` lines 20–31. -/
def defaultClassifiers : List String :=
  [ "Development Status :: 5 - Production/Stable",
    "Intended Audience :: Developers",
    "Intended Audience :: Education",
    "Topic :: Scientific/Engineering :: Artificial Intelligence",
    "License :: OSI Approved :: MIT License",
    "Programming Language :: Python :: 3",
    "Programming Language :: Python :: 3.8",
    "Programming Language :: Python :: 3.9",
    "Programming Language :: Python :: 3.10",
    "Programming Language :: Python :: 3.11" ]

/-- The `setup` call, generalised over the classifier list so that the
(non-)influence of the classifiers value on the other arguments can be
stated.  In the source the classifiers are the literal
`defaultClassifiers` and nothing else in the descriptor reads them. -/
def setupArgsWith (cs : List String) (readme reqTxt : List Char) : SetupArgs :=
  { name := "claude-ai-agents"
    version := "1.0.0"
    author := "Nishant Das"
    author_email := "nishant@example.com"
    description := "A comprehensive suite of AI agents for research, code review, visualization, finance, audio analysis, and content creation"
    long_description := readme
    long_description_content_type := "text/markdown"
    url := "https://github.com/NishantDas0079/Claude-AI-Agents-Professional"
    classifiers := cs
    python_requires := ">=3.8"
    install_requires := requirementsOf reqTxt
    extras_require :=
      [ ("dev",
          [ "pytest>=7.0", "pytest-cov>=4.0", "black>=23.0",
            "flake8>=6.0", "mypy>=1.5" ]),
        ("docs", [ "sphinx>=7.0", "sphinx-rtd-theme>=1.3" ]) ]
    entry_points :=
      [ ("console_scripts", [ "claude-agents=scripts.run_demo:main" ]) ]
    include_package_data := true
    keywords := "ai agents, machine learning, data science, visualization, automation"
    project_urls :=
      [ ("Bug Reports", "https://github.com/NishantDas0079/Claude-AI-Agents-Professional/issues"),
        ("Source", "https://github.com/NishantDas0079/Claude-AI-Agents-Professional"),
        ("Documentation", "https://github.com/NishantDas0079/Claude-AI-Agents-Professional/docs") ] }

/-- The `setup` call exactly as written: classifiers are the literal list. -/
def setupArgs : List Char → List Char → SetupArgs :=
  setupArgsWith defaultClassifiers

/-- An environment in which the descriptor is evaluated: the two files it
opens (`none` models a file that cannot be opened, which in Python raises
`FileNotFoundError`) together with the rest of the filesystem, which the
two `open` calls and the keyword arguments never consult. -/
structure Env where
  readme : Option (List Char)
  requirementsTxt : Option (List Char)
  otherFiles : List (String × List Char)
  deriving DecidableEq, Repr

/-- Top-to-bottom evaluation of `setup.py`: open `README.md` (line 4),
open `requirements.txt` (line 7), then call `setup`.  A missing file
aborts evaluation with the propagated exception. -/
def evalDescriptor (env : Env) : Except String SetupArgs :=
  match env.readme with
  | none => .error "FileNotFoundError: README.md"
  | some r =>
    match env.requirementsTxt with
    | none => .error "FileNotFoundError: requirements.txt"
    | some q => .ok (setupArgs r q)

/-- Split a character list at every occurrence of `sep` (the separator is
dropped); splitting the empty list yields one empty piece. -/
def splitOnChar (sep : Char) : List Char → List (List Char)
  | [] => [[]]
  | c :: cs =>
    if c = sep then [] :: splitOnChar sep cs
    else
      match splitOnChar sep cs with
      | [] => [[c]]
      | l :: ls => (c :: l) :: ls

/-- Modelled from the spec: how an installer interprets a console-script
entry specification `NAME = MODULE:ATTR` (the wiring itself lives in the
install tool, not in this repository).  The name before `=` is the
console command; the part after it names the module and the function the
command delegates to. -/
def parseEntryPoint (s : List Char) : Option (List Char × List Char × List Char) :=
  match splitOnChar '=' s with
  | [nm, target] =>
    match splitOnChar ':' target with
    | [md, fn] => some (pyStrip nm, pyStrip md, pyStrip fn)
    | _ => none
  | _ => none

/-- The numeric value of a decimal digit character, if it is one. -/
def charDigit? (c : Char) : Option Nat :=
  if '0' ≤ c ∧ c ≤ '9' then some (c.toNat - 48) else none

/-- Auxiliary accumulator for reading a decimal numeral. -/
def digitsToNatAux : List Char → Nat → Option Nat
  | [], acc => some acc
  | c :: cs, acc =>
    match charDigit? c with
    | some d => digitsToNatAux cs (acc * 10 + d)
    | none => none

/-- A non-empty all-digit character list as a natural number. -/
def digitsToNat? : List Char → Option Nat
  | [] => none
  | l => digitsToNatAux l 0

/-- Modelled from the spec: the install-time reading of a
`python_requires` specifier of the form `>=MAJOR.MINOR` (enforcement is
performed by the install tool, not by code of this repository). -/
def parseMinVersion (s : List Char) : Option (Nat × Nat) :=
  match s with
  | '>' :: '=' :: rest =>
    match splitOnChar '.' rest with
    | [a, b] =>
      match digitsToNat? a, digitsToNat? b with
      | some x, some y => some (x, y)
      | _, _ => none
    | _ => none
  | _ => none

/-- Modelled from the spec: install-time enforcement of the declared
minimum runtime version — installation on runtime `major.minor` is
allowed exactly when the version is at least the declared minimum
(an unparsable specifier imposes no constraint here). -/
def runtimeAllowed (s : List Char) (major minor : Nat) : Bool :=
  match parseMinVersion s with
  | some (a, b) => decide (a < major ∨ (a = major ∧ b ≤ minor))
  | none => true

/-- The distribution name in front of a version-specifier in a
requirement string: the characters before the first comparison
operator character. -/
def pkgNameOf (s : String) : String :=
  String.mk (s.data.takeWhile
    (fun c => !(c = '>' || c = '<' || c = '=' || c = '!' || c = '~')))

/-- Forget the classifiers argument, keeping every other argument. -/
def eraseClassifiers (a : SetupArgs) : SetupArgs :=
  { a with classifiers := [] }

/-! Helper lemmas shared by several theorems below. -/

/-- Filtering on truthiness-and-not-comment and then stripping is the same
as keeping the stripped form of exactly the lines whose stripped form is
non-empty and whose raw text does not start with `'#'`. -/
lemma filter_strip_eq_filterMap (ls : List (List Char)) :
    (ls.filter (fun line => !(pyStrip line).isEmpty && !startsWithHash line)).map pyStrip
      = ls.filterMap (fun line =>
          if pyStrip line ≠ [] ∧ startsWithHash line = false
          then some (pyStrip line) else none) := by
  induction ls with
  | nil => rfl
  | cons a t ih =>
    by_cases h1 : pyStrip a = [] <;> by_cases h2 : startsWithHash a = true <;>
      simp [List.filter_cons, List.filterMap_cons, h1, h2, ih, List.isEmpty_iff]

/-- Every line surviving the comprehension's filter has a non-empty
stripped form, so no produced element is empty. -/
lemma all_not_isEmpty_of_filter (ls : List (List Char)) :
    ((((ls.filter (fun line => !(pyStrip line).isEmpty && !startsWithHash line))).map pyStrip).all
      fun r => !r.isEmpty) = true := by
  induction ls with
  | nil => rfl
  | cons a t ih =>
    by_cases h1 : (pyStrip a).isEmpty = true <;> by_cases h2 : startsWithHash a = true <;>
      simp [List.filter_cons, h1, h2, ih]

/-- C1: the descriptor registers exactly one console entry point — the
`entry_points` argument maps `console_scripts` to the single specification
`claude-agents=scripts.run_demo:main`, and an installer reading that
specification obtains the command name `claude-agents` delegating to the
function `main` of module `scripts.run_demo` (whose body is outside the
repository). -/
theorem C1_console_entry_point :
    (∀ r q, (setupArgs r q).entry_points =
      [("console_scripts", ["claude-agents=scripts.run_demo:main"])]) ∧
    parseEntryPoint ("claude-agents=scripts.run_demo:main".data) =
      some ("claude-agents".data, "scripts.run_demo".data, "main".data) :=
  ⟨fun _ _ => rfl, by decide⟩

/-- C2: `install_requires` is exactly the list computed from the
`requirements.txt` content — it is a function of that content alone
(changing the README leaves it unchanged), and it is not a fixed in-line
enumeration (two manifest contents yield two different lists). -/
theorem C2_install_requires_from_manifest :
    (∀ r q, (setupArgs r q).install_requires = requirementsOf q) ∧
    (∀ r r' q, (setupArgs r q).install_requires = (setupArgs r' q).install_requires) ∧
    (setupArgs [] ("numpy\n".data)).install_requires = ["numpy".data] ∧
    (setupArgs [] []).install_requires = [] := by
  refine ⟨fun _ _ => rfl, fun _ _ _ => rfl, ?_, rfl⟩
  show requirementsOf ("numpy\n".data) = _
  decide

/-- C3: for every manifest content the computed list is exactly, in line
order, the stripped form of each line whose stripped form is non-empty
and whose raw (unstripped) text does not start with `'#'`; no element is
empty; a line of whitespace followed by `'#'` is kept (as its stripped
form) while a line starting with `'#'` at column zero is dropped. -/
theorem C3_requirements_line_format :
    (∀ content, requirementsOf content = requirementsSpec content ∧
      ((requirementsOf content).all fun r => !r.isEmpty) = true) ∧
    requirementsOf ("   # x\n".data) = [("# x").data] ∧
    requirementsOf ("#y\nnumpy\n".data) = ["numpy".data] :=
  ⟨fun _ => ⟨filter_strip_eq_filterMap _, all_not_isEmpty_of_filter _⟩, by decide, by decide⟩

/-- C4: `extras_require` declares exactly the two groups `dev` and `docs`;
the `dev` group's requirement strings name pytest, pytest-cov, black,
flake8 and mypy, and the `docs` group's name sphinx and sphinx-rtd-theme. -/
theorem C4_optional_dependency_groups :
    (∀ r q, (setupArgs r q).extras_require =
      [ ("dev", ["pytest>=7.0", "pytest-cov>=4.0", "black>=23.0", "flake8>=6.0", "mypy>=1.5"]),
        ("docs", ["sphinx>=7.0", "sphinx-rtd-theme>=1.3"]) ]) ∧
    (["pytest>=7.0", "pytest-cov>=4.0", "black>=23.0", "flake8>=6.0", "mypy>=1.5"].map pkgNameOf
      = ["pytest", "pytest-cov", "black", "flake8", "mypy"]) ∧
    (["sphinx>=7.0", "sphinx-rtd-theme>=1.3"].map pkgNameOf = ["sphinx", "sphinx-rtd-theme"]) :=
  ⟨fun _ _ => rfl, by decide, by decide⟩

/-- C5: the descriptor declares `python_requires` as the specifier
`>=3.8`, read as minimum version 3.8; under the modelled install-time
enforcement a runtime is allowed exactly when it is at least 3.8, so any
runtime below the minimum (such as 3.7 or 2.9) is rejected. -/
theorem C5_python_requires_minimum :
    (∀ r q, (setupArgs r q).python_requires = ">=3.8") ∧
    parseMinVersion (">=3.8".data) = some (3, 8) ∧
    (∀ ma mi : Nat, runtimeAllowed (">=3.8".data) ma mi =
      decide (3 < ma ∨ (3 = ma ∧ 8 ≤ mi))) ∧
    runtimeAllowed (">=3.8".data) 3 7 = false ∧
    runtimeAllowed (">=3.8".data) 2 9 = false ∧
    runtimeAllowed (">=3.8".data) 3 8 = true := by
  have h : parseMinVersion (">=3.8".data) = some (3, 8) := by decide
  refine ⟨fun _ _ => rfl, h, ?_, by decide, by decide, by decide⟩
  intro ma mi
  unfold runtimeAllowed
  rw [h]

/-- C6: the classifiers argument is the fixed literal list, which carries
the MIT license tag, both intended-audience tags and the Artificial
Intelligence topic tag; and no other `setup` argument depends on the
classifiers value — replacing it changes nothing else. -/
theorem C6_classifiers_inert :
    (∀ r q, (setupArgs r q).classifiers = defaultClassifiers) ∧
    defaultClassifiers.contains "License :: OSI Approved :: MIT License" = true ∧
    defaultClassifiers.contains "Intended Audience :: Developers" = true ∧
    defaultClassifiers.contains "Intended Audience :: Education" = true ∧
    defaultClassifiers.contains "Topic :: Scientific/Engineering :: Artificial Intelligence" = true ∧
    (∀ cs cs' r q, eraseClassifiers (setupArgsWith cs r q) =
      eraseClassifiers (setupArgsWith cs' r q)) :=
  ⟨fun _ _ => rfl, by decide, by decide, by decide, by decide, fun _ _ _ _ => rfl⟩

/-- C7 counterexample: the claim that no execution path of the descriptor
raises a user-visible error fails — in the environment where `README.md`
cannot be opened, line 4's `open` raises `FileNotFoundError`, so the
descriptor does not evaluate to a successful `setup` call for every
environment. -/
theorem C7_missing_readme_raises :
    evalDescriptor ⟨none, some [], []⟩ = Except.error "FileNotFoundError: README.md" ∧
    ¬ (∀ env : Env, ∃ a, evalDescriptor env = Except.ok a) := by
  refine ⟨rfl, fun h => ?_⟩
  rcases h ⟨none, some [], []⟩ with ⟨a, ha⟩
  exact Except.noConfusion ha

/-- C7 amended: the descriptor's only error paths are the failures to open
its two input files; in every environment where `README.md` and
`requirements.txt` are both readable, evaluation raises nothing and
reaches the `setup` call. -/
theorem C7_no_error_when_files_present :
    ∀ (env : Env) (r q : List Char), env.readme = some r →
      env.requirementsTxt = some q → evalDescriptor env = Except.ok (setupArgs r q) := by
  rintro ⟨er, eq, eo⟩ r q h1 h2
  simp only at h1 h2
  subst h1; subst h2
  rfl

/-- Witness for C7 amended at a concrete environment holding both files. -/
theorem C7_no_error_when_files_present_witness :
    Env.readme ⟨some [], some [], []⟩ = some [] ∧
    Env.requirementsTxt ⟨some [], some [], []⟩ = some [] ∧
    evalDescriptor ⟨some [], some [], []⟩ = Except.ok (setupArgs [] []) :=
  ⟨rfl, rfl, C7_no_error_when_files_present ⟨some [], some [], []⟩ [] [] rfl rfl⟩

/-- C8 counterexample: the claim that no input file is interpreted under a
format the descriptor itself defines fails — on a concrete manifest the
descriptor's own line rules (line 8) drop the `'#'`-initial line, so the
derived value is not the raw line sequence of the file. -/
theorem C8_manifest_is_interpreted :
    requirementsOf ("#c\nnumpy\n".data) = ["numpy".data] ∧
    requirementsOf ("#c\nnumpy\n".data) ≠ splitFileLines ("#c\nnumpy\n".data) :=
  ⟨by decide, by decide⟩

/-- C8 amended: the descriptor defines no wire protocol or persisted
state and passes `README.md` through uninterpreted, but it does interpret
`requirements.txt` under a line-oriented format it itself defines:
stripped non-blank lines, excluding lines whose raw text starts
with `'#'`. -/
theorem C8_readme_verbatim_manifest_format :
    (∀ r q, (setupArgs r q).long_description = r) ∧
    (∀ q, requirementsOf q = requirementsSpec q) :=
  ⟨fun _ _ => rfl, fun _ => filter_strip_eq_filterMap _⟩

/-- C9: for every README content, `long_description` is that content
verbatim and its declared content type is `text/markdown`. -/
theorem C9_long_description_verbatim :
    ∀ r q, (setupArgs r q).long_description = r ∧
      (setupArgs r q).long_description_content_type = "text/markdown" :=
  fun _ _ => ⟨rfl, rfl⟩

/-- C10: evaluating the descriptor is deterministic and depends on no
input beyond the two files it reads — two environments agreeing on
`README.md` and `requirements.txt` (whatever the rest of the filesystem
holds) produce identical outcomes, hence identical `setup` arguments. -/
theorem C10_two_file_determinism :
    ∀ env env' : Env, env.readme = env'.readme →
      env.requirementsTxt = env'.requirementsTxt →
      evalDescriptor env = evalDescriptor env' := by
  rintro ⟨er, eq, eo⟩ ⟨er', eq', eo'⟩ h1 h2
  simp only at h1 h2
  subst h1; subst h2
  rfl

/-- Witness for C10 at two concrete environments differing only in the
rest of the filesystem. -/
theorem C10_two_file_determinism_witness :
    Env.readme ⟨some [], some [], []⟩ = Env.readme ⟨some [], some [], [("x", ['a'])]⟩ ∧
    Env.requirementsTxt ⟨some [], some [], []⟩ =
      Env.requirementsTxt ⟨some [], some [], [("x", ['a'])]⟩ ∧
    evalDescriptor ⟨some [], some [], []⟩ = evalDescriptor ⟨some [], some [], [("x", ['a'])]⟩ :=
  ⟨rfl, rfl, C10_two_file_determinism ⟨some [], some [], []⟩
    ⟨some [], some [], [("x", ['a'])]⟩ rfl rfl⟩
